import Mathlib

/-!
Verification of `GeometryReader::read_geom`
(`src/OpenMEEG/include/geometry_reader.h`).

The embedding models the byte stream of the geometry file as a list of
characters together with a C++-style fail bit (`IStream`).  The `io_utils`
stream manipulators (declared in `IOUtils.H`, which is not part of the
sources) are modelled from the spec, section 4.1.  The mesh/interface data
structures (declared in `interface.h`, also absent) are modelled from the
spec, section 3.  External mesh-geometry operations (loading mesh files,
the closure check with its orientation-repair pass) are out of scope per
the spec and are supplied as an oracle environment `Env`.

All control flow of `read_geom` itself is transcribed from the source.
-/

/-- C++ `isspace` in the default locale: the six standard whitespace
characters skipped by formatted stream extraction. -/
def isWs (c : Char) : Bool :=
  c = ' ' || c = '\t' || c = '\n' || c = '\r' || c = '\x0B' || c = '\x0C'

/-- An input character stream with a C++-style fail bit: once `fail` is
set, every further operation is a no-op (as for `std::istream`). -/
structure IStream where
  data : List Char
  fail : Bool
deriving DecidableEq, Repr

/-- Skip leading whitespace (the action of `std::ws` / the `skipws` sentry). -/
def skipWs (s : IStream) : IStream :=
  if s.fail then s else { s with data := s.data.dropWhile isWs }

/-- Match a literal character by character; `none` on mismatch. -/
def matchChars : List Char → List Char → Option (List Char)
  | [], d => some d
  | c :: cs, d =>
    match d with
    | [] => none
    | x :: xs => if x = c then matchChars cs xs else none

/-- Modelled from the spec (4.1): `match(literal)` fails if the literal is
absent.  Leading whitespace is skipped, then the literal must follow
exactly; a mismatch sets the failure state. -/
def matchLit (lit : List Char) (s : IStream) : IStream :=
  if s.fail then s
  else
    let s1 := skipWs s
    match matchChars lit s1.data with
    | some rest => { data := rest, fail := false }
    | none => { s with fail := true }

/-- Modelled from the spec (4.1): `match_optional(literal) -> bool`; on
mismatch the stream is left unchanged and `false` is returned. -/
def matchOptional (lit : List Char) (s : IStream) : IStream × Bool :=
  if s.fail then (s, false)
  else
    let s1 := matchLit lit s
    if s1.fail then (s, false) else (s1, true)

/-- Helper for `matchAlternative`: try each literal in turn. -/
def matchAlternativeGo : List (List Char) → Nat → IStream → IStream × Option Nat
  | [], _, s => ({ s with fail := true }, none)
  | l :: ls, i, s =>
    let s1 := matchLit l s
    if s1.fail then matchAlternativeGo ls (i + 1) s else (s1, some i)

/-- Modelled from the spec (4.1): `match_alternative(literals) -> index`
fails only if none match.  The C++ `int index` output is left untouched on
failure (it is declared uninitialized at the call site); the embedding
represents that absent value as `none`. -/
def matchAlternative (lits : List (List Char)) (s : IStream) : IStream × Option Nat :=
  if s.fail then (s, none)
  else matchAlternativeGo lits 0 s

/-- Decimal digits to a natural number. -/
def digitsToNat (ds : List Char) : Nat :=
  ds.foldl (fun a c => a * 10 + (c.toNat - '0'.toNat)) 0

/-- Formatted extraction into `unsigned`: skip whitespace, read a digit
run.  Per C++11, a failed extraction attempt writes `0`; if the stream has
already failed, the previous value (`old`) is kept. -/
def readUnsigned (s : IStream) (old : Nat) : IStream × Nat :=
  if s.fail then (s, old)
  else
    let s1 := skipWs s
    let ds := s1.data.takeWhile (fun c => c.isDigit)
    if ds.isEmpty then ({ s1 with fail := true }, 0)
    else ({ data := s1.data.dropWhile (fun c => c.isDigit), fail := false }, digitsToNat ds)

/-- Formatted extraction into `std::string`: skip whitespace, read a
maximal non-whitespace run; at end of stream the extraction fails and the
previous value is kept. -/
def readString (s : IStream) (old : List Char) : IStream × List Char :=
  if s.fail then (s, old)
  else
    let s1 := skipWs s
    let w := s1.data.takeWhile (fun c => !(isWs c))
    if w.isEmpty then ({ s1 with fail := true }, old)
    else ({ data := s1.data.drop w.length, fail := false }, w)

/-- Modelled from the spec (4.1): `token(delimiter)` reads up to a
delimiter (here after skipping leading whitespace), consuming the
delimiter; if the delimiter never occurs the stream fails. -/
def readToken (s : IStream) (delim : Char) (old : List Char) : IStream × List Char :=
  if s.fail then (s, old)
  else
    let s1 := skipWs s
    let w := s1.data.takeWhile (fun c => c ≠ delim)
    match s1.data.drop w.length with
    | [] => ({ data := [], fail := true }, old)
    | _ :: rs => ({ data := rs, fail := false }, w)

/-- Modelled from the spec (4.1): `filename(quote, optional_quotes)` reads
a bare or quoted path: after skipping whitespace, either a quoted run up
to the closing quote, or a maximal non-whitespace run. -/
def readFilename (s : IStream) (old : List Char) : IStream × List Char :=
  if s.fail then (s, old)
  else
    let s1 := skipWs s
    match s1.data with
    | [] => ({ s1 with fail := true }, old)
    | c :: cs =>
      if c = '"' then
        let w := cs.takeWhile (fun c => c ≠ '"')
        match cs.drop w.length with
        | [] => ({ data := [], fail := true }, old)
        | _ :: rs => ({ data := rs, fail := false }, w)
      else
        let w := (c :: cs).takeWhile (fun c => !(isWs c))
        ({ data := (c :: cs).drop w.length, fail := false }, w)

/-- One pass of comment skipping over raw data: drop whitespace; if the
next character is the comment marker, drop the whole line and repeat.  The
fuel (the data length) strictly dominates the number of iterations since
every comment line consumes at least one character. -/
def skipCommentsFuel (marker : Char) : Nat → List Char → List Char
  | 0, d => d
  | n + 1, d =>
    let d1 := d.dropWhile isWs
    match d1 with
    | [] => []
    | c :: rest =>
      if c = marker then
        skipCommentsFuel marker n ((rest.dropWhile (fun x => x ≠ '\n')).drop 1)
      else c :: rest

/-- Modelled from the spec (4.1): `skip_comments(marker)` skips whole
lines beginning with `marker` wherever a keyword is expected. -/
def skipComments (marker : Char) (s : IStream) : IStream :=
  if s.fail then s
  else { s with data := skipCommentsFuel marker s.data.length s.data }

/-- Model of `std::getline`: read up to the newline (consumed, not stored); at end
of stream nothing is extracted and the stream fails. -/
def getlineS (s : IStream) : IStream × List Char :=
  if s.fail then (s, [])
  else
    match s.data with
    | [] => ({ s with fail := true }, [])
    | _ =>
      let w := s.data.takeWhile (fun c => c ≠ '\n')
      ({ data := (s.data.drop w.length).drop 1, fail := false }, w)

/-- Model of `istream::peek`: the next character without consuming it (`none` at
end of stream or on a failed stream, standing for `EOF`). -/
def peekS (s : IStream) : Option Char :=
  if s.fail then none else s.data.head?

/-- Whitespace-separated words of a line, as produced by repeated
`iss >> id` extraction in a `while` loop. -/
def wordsFuel : Nat → List Char → List (List Char)
  | 0, _ => []
  | n + 1, l =>
    let l1 := l.dropWhile isWs
    match l1 with
    | [] => []
    | c :: rest =>
      let w := (c :: rest).takeWhile (fun x => !(isWs x))
      w :: wordsFuel n ((c :: rest).drop w.length)

/-- All tokens a `while (iss >> id)` loop extracts from the remainder of a
line stream (none if the stream has already failed). -/
def streamWords (s : IStream) : List (List Char) :=
  if s.fail then [] else wordsFuel s.data.length s.data

/-- Modelled from the spec (3): the format-version tag
(`Geometry::VERSION10` / `Geometry::VERSION11`). -/
inductive VersionId where
  | VERSION10
  | VERSION11
deriving DecidableEq, Repr

/-- Modelled from the spec (3): an `OrientedMesh` is a reference to a mesh
(identified here by its unique name) plus a boolean orientation flag
(`true` = as loaded, `false` = flipped). -/
structure OrientedMesh where
  mesh : String
  orientation : Bool
deriving DecidableEq, Repr

/-- Modelled from the spec (3): an `Interface` is a named ordered sequence
of `OrientedMesh`, carrying an "is outermost" flag
(`Interface::set_to_outermost`). -/
structure Interface where
  name : String
  oriented : List OrientedMesh := []
  isOutermost : Bool := false
deriving DecidableEq, Repr

/-- Modelled from the spec (3): a `HalfSpace` is `std::pair<Interface,bool>`
(an interface value plus the `inside` side selector). -/
structure HalfSpace where
  intf : Interface
  inside : Bool
deriving DecidableEq, Repr

/-- Modelled from the spec (3): a `Domain` is a named ordered collection of
half-spaces with an "outermost" flag (false on a default-constructed
domain, as produced by `domains_.resize`). -/
structure Domain where
  name : String := ""
  halfspaces : List HalfSpace := []
  outermost : Bool := false
deriving DecidableEq, Repr

/-- Modelled from the spec (3): the fields of `Geometry` that `read_geom`
writes (`meshes_` reduced to their unique names — vertices are external
mesh geometry and out of scope —, `domains_`, `version_id`, `is_nested_`).
The version tag before assignment is represented as `none`.  Interfaces
are a local variable of `read_geom` in the source; the produced domains
carry their interface values. -/
structure Geometry where
  meshNames : List String := []
  domains : List Domain := []
  version_id : Option VersionId := none
  is_nested : Bool := false
deriving DecidableEq, Repr

/-- The typed errors thrown by `read_geom` (from `GeometryExceptions.H`,
modelled from the spec, section 7). -/
inductive GeomError where
  | OpenError (file : String)
  | WrongFileFormat (file : String)
  | NonExistingDomain (domain : String) (id : String)
  | UnknownMeshReference (id : String)
deriving DecidableEq, Repr

/-- How a call to `read_geom` ends: normal return, a thrown typed error,
or `exit(code)` — unconditional termination of the host process. -/
inductive Outcome where
  | ok
  | error (e : GeomError)
  | processExit (code : Nat)
deriving DecidableEq, Repr

/-- Observable result of a call: the destination geometry as left by the
call (the source mutates a caller-owned `Geometry&` in place), the
messages printed to `std::cerr`, and the outcome. -/
structure RunOut where
  geom : Geometry
  warnings : List String
  outcome : Outcome
deriving DecidableEq, Repr

/-- Modelled from the spec (1, 4.6, 6): the external mesh-geometry
collaborators.  `vtpMeshes` is the merged multi-surface loader
(`Geometry::load_vtp`): the named mesh set contained in a VTK/vtp file.
`check` is `Interface::check()`: the closure check together with its one
automatic orientation-repair pass over the actual triangulated surfaces;
`none` means still unclosed after repair, `some ms` the (possibly
repaired) member list. -/
structure Env where
  vtpMeshes : String → List String
  check : List OrientedMesh → Option (List OrientedMesh)

/-- Source `GeometryReader::is_relative_path` (non-WIN32 branch): a path is
relative iff it does not start with `/` (`name[0]` on an empty
`std::string` reads the terminating null character). -/
def is_relative_path (name : List Char) : Bool :=
  match name with
  | [] => true
  | c :: _ => c ≠ '/'

/-- Source `GeometryReader::dir` (non-WIN32 branch): everything up to and
including the last `/`, or empty if there is none. -/
def dir (filename : List Char) : List Char :=
  (filename.reverse.dropWhile (fun c => c ≠ '/')).reverse

/-- Source `GeometryReader::fullname`: prefix relative paths with the geometry
file's own directory. -/
def fullname (filename : List Char) (path : List Char) : List Char :=
  if is_relative_path filename then path ++ filename else filename

/-- Source `GeometryReader::name`: the decimal representation of `n`, used as a
default mesh/interface name. -/
def defaultName (n : Nat) : String :=
  toString n

/-- Sign parsing for an id in a domain's id list (source lines 305-308):
`bool inside = false;` then a leading `-`/`+` sets `inside = (id[0]=='-')`
and is stripped; the returned pair is `(inside, id)`. -/
def parseDomainId (tok : List Char) : Bool × List Char :=
  match tok with
  | [] => (false, [])
  | c :: rest => if c = '-' ∨ c = '+' then (c = '-', rest) else (false, c :: rest)

/-- Sign parsing for an id in an interface's id list (source lines
274-278): `bool oriented = true;` then a leading `-`/`+` sets
`oriented = (id[0]=='+')` and is stripped; the returned pair is
`(oriented, id)`. -/
def parseOrientedId (tok : List Char) : Bool × List Char :=
  match tok with
  | [] => (true, [])
  | c :: rest => if c = '-' ∨ c = '+' then (c = '+', rest) else (true, c :: rest)

/-- The version gate of the header (source lines 139-144): accept
`major=1, minor∈{0,1}`, otherwise no version; map minor 0 to `VERSION10`
and minor 1 to `VERSION11`. -/
def checkVersion (v0 v1 : Nat) : Option VersionId :=
  if v0 ≠ 1 ∨ v1 > 1 then none
  else some (if v1 = 0 then VersionId.VERSION10 else VersionId.VERSION11)

/-- The `std::cerr` notice printed when the version gate rejects. -/
def versionWarning : String := "Domain Description version not available !"

/-- The `std::cerr` deprecation notice for format 1.0 (first line). -/
def deprecatedWarning (geometry : String) : String :=
  "(DEPRECATED geometry file): " ++ geometry

/-- Header parsing (source lines 133-148): match
`"# Domain Description "`, extract `major`, match `"."`, extract `minor`;
a stream failure or a rejected version throws `WrongFileFormat`. -/
def headerPhase (geometry : String) (data : List Char) :
    Except (List String × GeomError) (IStream × VersionId × List String) :=
  let ifs : IStream := ⟨data, false⟩
  let ifs := matchLit ("# Domain Description ".toList) ifs
  let q0 := readUnsigned ifs 0
  let ifs := matchLit (".".toList) q0.1
  let q1 := readUnsigned ifs 0
  if q1.1.fail then .error ([], .WrongFileFormat geometry)
  else
    match checkVersion q0.2 q1.2 with
    | none => .error ([versionWarning], .WrongFileFormat geometry)
    | some vid =>
      let ws := if vid = VersionId.VERSION10 then [deprecatedWarning geometry] else []
      .ok (q1.1, vid, ws)

/-- The `Meshes` entry loop (source lines 175-191): for each of `nb`
entries match `Mesh`, read a name (defaulted to the 1-based index when the
next character is `:`), read a path; the mesh is loaded externally and its
recorded name collected. -/
def meshesLoop (path : List Char) : Nat → Nat → IStream → List String → IStream × List String
  | 0, _, ifs, acc => (ifs, acc)
  | n + 1, i, ifs, acc =>
    let ifs := skipComments '#' ifs
    let ifs := matchLit ("Mesh".toList) ifs
    let q :=
      if peekS ifs = some ':' then (ifs, defaultName (i + 1))
      else
        let t := readToken ifs ':' []
        (t.1, String.mk t.2)
    let f := readFilename q.1 []
    meshesLoop path n (i + 1) f.1 (acc ++ [q.2])

/-- The optional mesh section of the CURRENT format (source lines
156-198): `match_alternative {"MeshFile","Meshes"}` followed by a `switch`
on the index.  NOTE: the source's `case 0` has no `break`, so after
loading the vtp file control falls through into `case 1`, which reads a
mesh count from the stream. -/
def meshSection (env : Env) (path : List Char) (ifs : IStream) (g : Geometry) :
    IStream × Geometry :=
  let ifs := skipComments '#' ifs
  let q := matchAlternative [("MeshFile".toList), ("Meshes".toList)] ifs
  let index := q.2
  let p :=
    if index = some 0 then
      let ifs := skipComments '#' q.1
      let f := readFilename ifs []
      (f.1, { g with meshNames := g.meshNames ++ env.vtpMeshes (String.mk (fullname f.2 path)) })
    else (q.1, g)
  if index = some 0 ∨ index = some 1 then
    let r := readUnsigned p.1 0
    let m := meshesLoop path r.2 0 r.1 []
    (m.1, { p.2 with meshNames := p.2.meshNames ++ m.2 })
  else p

/-- The `Interfaces` section header (source lines 202-208): match
`Interfaces`, read the count, optionally consume a legacy `Mesh` keyword;
a failed stream throws `WrongFileFormat`. -/
def interfacesHeader (geometry : String) (ifs : IStream) :
    Except GeomError (IStream × Nat) :=
  let ifs := skipComments '#' ifs
  let ifs := matchLit ("Interfaces".toList) ifs
  let q := readUnsigned ifs 0
  let r := matchOptional ("Mesh".toList) q.1
  if r.1.fail then .error (.WrongFileFormat geometry)
  else .ok (r.1, q.2)

/-- Pass 1 of Mode B (no meshes pre-loaded; source lines 222-241):
collect interface names (defaulted to the 1-based index when unnamed or in
the LEGACY format) and resolved file paths. -/
def modeBPass1 (vid : VersionId) (path : List Char) :
    Nat → Nat → IStream → List (String × List Char) → IStream × List (String × List Char)
  | 0, _, ifs, acc => (ifs, acc)
  | n + 1, i, ifs, acc =>
    let ifs := skipComments '#' ifs
    let u := matchOptional ("Interface:".toList) ifs
    let q :=
      if u.2 = true ∨ vid = VersionId.VERSION10 then (u.1, defaultName (i + 1))
      else
        let ifs := matchLit ("Interface".toList) u.1
        let t := readToken ifs ':' []
        (t.1, String.mk t.2)
    let f := readFilename q.1 []
    modeBPass1 vid path n (i + 1) f.1 (acc ++ [(q.2, fullname f.2 path)])

/-- Mode B (source lines 217-252): after pass 1, pass 2 loads each file
for real into the shared pool (external) and builds one interface per
file containing exactly one well-oriented mesh. -/
def modeB (vid : VersionId) (path : List Char) (nb : Nat) (ifs : IStream) (g : Geometry) :
    IStream × List Interface × Geometry :=
  let p := modeBPass1 vid path nb 0 ifs []
  let g2 := { g with meshNames := g.meshNames ++ p.2.map (fun x => x.1) }
  (p.1, p.2.map (fun x => ({ name := x.1, oriented := [{ mesh := x.1, orientation := true }] } : Interface)), g2)

/-- The id loop of a Mode A interface line (source lines 273-280): parse
each signed mesh name and look it up among the already loaded meshes
(`geom.mesh(id)`); per the spec (4.4) an unknown name is a fatal lookup
error. -/
def modeAIds (g : Geometry) : List (List Char) → List OrientedMesh → Except GeomError (List OrientedMesh)
  | [], acc => .ok acc
  | tok :: rest, acc =>
    let p := parseOrientedId tok
    let idS := String.mk p.2
    if g.meshNames.contains idS then
      modeAIds g rest (acc ++ [{ mesh := idS, orientation := p.1 }])
    else .error (.UnknownMeshReference idS)

/-- Mode A (meshes already loaded; source lines 254-282): one line per
interface; parse an optional name (the `std::string interfacename` is
declared outside the loop, so on a failed name parse the previous entry's
name persists), then the signed mesh references on the rest of the line. -/
def modeALoop (g : Geometry) : Nat → Nat → IStream → String → List Interface →
    Except GeomError (IStream × List Interface)
  | 0, _, ifs, _, acc => .ok (ifs, acc)
  | n + 1, i, ifs, prev, acc =>
    let ifs := skipComments '#' ifs
    let gl := getlineS ifs
    let iss : IStream := ⟨gl.2, false⟩
    let u := matchOptional ("Interface:".toList) iss
    let q :=
      if u.2 then (u.1, defaultName (i + 1))
      else
        let iss := matchLit ("Interface".toList) u.1
        let t := readToken iss ':' prev.toList
        (t.1, String.mk t.2)
    match modeAIds g (streamWords q.1) [] with
    | .error e => .error e
    | .ok oms =>
      modeALoop g n (i + 1) gl.1 q.2 (acc ++ [({ name := q.2, oriented := oms } : Interface)])

/-- The interface section body (source lines 212-282): Mode B when no
meshes are loaded yet, Mode A otherwise. -/
def interfacesPhase (vid : VersionId) (path : List Char) (nb : Nat) (ifs : IStream) (g : Geometry) :
    Except GeomError (IStream × List Interface × Geometry) :=
  if g.meshNames.length = 0 then
    let p := modeB vid path nb ifs g
    .ok p
  else
    match modeALoop g nb 0 ifs "" [] with
    | .error e => .error e
    | .ok p => .ok (p.1, p.2, g)

/-- The `std::cerr` deprecation notice for the `shared` keyword (source
line 310). -/
def sharedWarning (geometry : String) : String :=
  "(DEPRECATED) Keyword shared is useless. Please consider updating your geometry file to the new format 1.1 (see data/README.rst): " ++ geometry

/-- The `std::cerr` message printed right before `exit(1)` when an
interface is not closed (source lines 317-319). -/
def notClosedWarning (iname : String) : String :=
  "Interface " ++ iname ++ " is not closed !"

/-- The inner interface scan of a domain id (source lines 313-324): every
interface whose name matches `id` is closure-checked (`Interface::check`,
which may repair member orientations in place) and appended to the domain
as a half-space; a failed check means `exit(1)`, reported here as
`.error` carrying the unclosed interface's name. -/
def scanInterfaces (env : Env) (id : String) (inside : Bool) :
    List Interface → Domain → Except String (List Interface × Domain × Bool)
  | [], d => .ok ([], d, false)
  | intf :: rest, d =>
    if intf.name = id then
      match env.check intf.oriented with
      | none => .error intf.name
      | some repaired =>
        let intf2 := { intf with oriented := repaired }
        let d2 := { d with halfspaces := d.halfspaces ++ [{ intf := intf2, inside := inside }] }
        match scanInterfaces env id inside rest d2 with
        | .error n => .error n
        | .ok (rest2, d3, _) => .ok (intf2 :: rest2, d3, true)
    else
      match scanInterfaces env id inside rest d with
      | .error n => .error n
      | .ok (rest2, d3, f) => .ok (intf :: rest2, d3, f)

/-- Result of processing one domain line's id list. -/
inductive IdsRes where
  | okRes (d : Domain) (intfs : List Interface) (ws : List String)
  | errRes (e : GeomError) (d : Domain) (ws : List String)
  | exitRes (code : Nat) (d : Domain) (ws : List String)
deriving Repr

/-- The `while (iss >> id)` loop of a domain line (source lines 303-327):
parse the sign, handle the deprecated `shared` keyword (which stops the
id list early with a warning), scan the interfaces, and throw
`NonExistingDomain(name, id)` when no interface matches. -/
def processDomainIds (env : Env) (geometry : String) (dname : String) :
    List (List Char) → List Interface → Domain → List String → IdsRes
  | [], intfs, d, ws => .okRes d intfs ws
  | tok :: rest, intfs, d, ws =>
    let hadSign : Bool := (tok.head? == some '-') || (tok.head? == some '+')
    let p := parseDomainId tok
    if hadSign = false ∧ tok = ("shared".toList) then
      .okRes d intfs (ws ++ [sharedWarning geometry])
    else
      match scanInterfaces env (String.mk p.2) p.1 intfs d with
      | .error iname => .exitRes 1 d (ws ++ [notClosedWarning iname])
      | .ok (intfs2, d2, found) =>
        if found then processDomainIds env geometry dname rest intfs2 d2 ws
        else .errRes (.NonExistingDomain dname (String.mk p.2)) d2 ws

/-- The `Domains` section header (source lines 286-292): match `Domains`,
read the count (a failed stream throws `WrongFileFormat`), then
`domains_.resize(count)`. -/
def domainsHeader (geometry : String) (ifs : IStream) :
    Except GeomError (IStream × Nat) :=
  let ifs := skipComments '#' ifs
  let ifs := matchLit ("Domains".toList) ifs
  let q := readUnsigned ifs 0
  if q.1.fail then .error (.WrongFileFormat geometry)
  else .ok (q.1, q.2)

/-- Result of the whole domain loop: the final stream and domain vector,
or the typed error / process exit cutting it short (in which case the
remaining resized slots keep their default-constructed values). -/
inductive DomainsRes where
  | done (ifs : IStream) (ds : List Domain) (ws : List String)
  | fatal (e : GeomError) (ds : List Domain) (ws : List String)
  | exited (code : Nat) (ds : List Domain) (ws : List String)
deriving Repr

/-- The domain loop (source lines 293-328): for each resized slot match
`Domain`, read the name (a bare token in the LEGACY format, a token up to
`:` otherwise), take the rest of the line, and process its id list. -/
def domainsPhase (env : Env) (geometry : String) (vid : VersionId) :
    Nat → IStream → List Interface → List Domain → List String → DomainsRes
  | 0, ifs, _, acc, ws => .done ifs acc ws
  | n + 1, ifs, intfs, acc, ws =>
    let ifs := skipComments '#' ifs
    let ifs := matchLit ("Domain".toList) ifs
    let q :=
      if vid = VersionId.VERSION10 then
        let t := readString ifs []
        (t.1, String.mk t.2)
      else
        let t := readToken ifs ':' []
        (t.1, String.mk t.2)
    let gl := getlineS q.1
    match processDomainIds env geometry q.2 (streamWords ⟨gl.2, false⟩) intfs ({ name := q.2 } : Domain) ws with
    | .exitRes c d ws2 => .exited c (acc ++ [d] ++ List.replicate n ({} : Domain)) ws2
    | .errRes e d ws2 => .fatal e (acc ++ [d] ++ List.replicate n ({} : Domain)) ws2
    | .okRes d intfs2 ws2 => domainsPhase env geometry vid n gl.1 intfs2 (acc ++ [d]) ws2

/-- Condition `outer`: every half-space of the domain has `inside == false` (source
lines 335-337). -/
def allOutside (d : Domain) : Bool :=
  d.halfspaces.all (fun h => !h.inside)

/-- Mark a domain as the outermost one and propagate
`set_to_outermost` onto every interface it references (source lines
341-344; the half-spaces hold the interfaces by value). -/
def setOutermostD (d : Domain) : Domain :=
  { d with outermost := true,
           halfspaces := d.halfspaces.map (fun h => { h with intf := { h.intf with isOutermost := true } }) }

/-- The outermost-domain search (source lines 333-347): scan the domains
in order; the first one all of whose half-spaces are outside is marked
(and the scan `break`s).  The returned index models `dit_out`, which the
source leaves uninitialized when no domain qualifies (`none` here). -/
def markOutermost : List Domain → List Domain × Option Nat
  | [] => ([], none)
  | d :: ds =>
    if allOutside d then (setOutermostD d :: ds, some 0)
    else
      let p := markOutermost ds
      (d :: p.1, p.2.map (fun i => i + 1))

/-- Counter `out_interface`: the number of outside half-spaces of a domain (source
lines 356-360). -/
def countOutside (d : Domain) : Nat :=
  (d.halfspaces.filter (fun h => !h.inside)).length

/-- First nested-geometry pass (source lines 354-365): a non-outermost
domain with two or more outside half-spaces makes the geometry non-nested.
The comparison `dit != dit_out` is index-based; when no outermost domain
was found the source compares against an uninitialized iterator
(undefined behavior) — the embedding takes `none` to compare unequal to
every domain. -/
def nestedPassAAux : List Domain → Nat → Option Nat → Bool
  | [], _, _ => true
  | d :: ds, i, o =>
    let cnt := if o = some i then 0 else countOutside d
    if 2 ≤ cnt then false else nestedPassAAux ds (i + 1) o

/-- First nested-geometry pass, started at index 0. -/
def nestedPassA (ds : List Domain) (o : Option Nat) : Bool :=
  nestedPassAAux ds 0 o

/-- The modulus of the source's `unsigned` arithmetic, 2 to the 32. -/
def N32 : Nat := 4294967296

/-- Modelled from the spec (4.6): an oriented mesh contributes `+1` when
`orientation=true` and `-1` when `orientation=false`
(`OrientedMesh::orientation()` is declared in the absent `interface.h`).
The contribution is accumulated into the source's `unsigned m_oriented`,
so `-1` is the wrapped value `2^32 - 1`. -/
def orientationVal (b : Bool) : Nat :=
  if b then 1 else N32 - 1

/-- Counter `m_oriented` for one mesh (source lines 369-374): sum the orientation
contributions over every (domain, half-space, interface-member) triple
whose member mesh is `m`, in `unsigned` arithmetic. -/
def meshOrientedCount (ds : List Domain) (m : String) : Nat :=
  ds.foldl (fun a d =>
    d.halfspaces.foldl (fun a h =>
      h.intf.oriented.foldl (fun a om =>
        if om.mesh = m then (a + orientationVal om.orientation) % N32 else a) a) a) 0

/-- Second nested-geometry pass (source lines 367-380): a mesh of the
model whose accumulated contribution is zero makes the geometry
non-nested. -/
def nestedPassB (names : List String) (ds : List Domain) : Bool :=
  names.all (fun m => meshOrientedCount ds m != 0)

/-- The nested classification (source lines 354-381): pass B runs only if
pass A left `nested` true. -/
def computeNested (names : List String) (ds : List Domain) (o : Option Nat) : Bool :=
  if nestedPassA ds o then nestedPassB names ds else false

/-- End of `read_geom` (source lines 330-389): the two analysis passes,
storing `is_nested_`, and the final stream check, which throws
`WrongFileFormat` after the analysis already mutated the geometry. -/
def finish (geometry : String) (ifs : IStream) (g : Geometry) (ws : List String) : RunOut :=
  let p := markOutermost g.domains
  let nested := computeNested g.meshNames p.1 p.2
  let g2 := { g with domains := p.1, is_nested := nested }
  if ifs.fail then ⟨g2, ws, .error (.WrongFileFormat geometry)⟩ else ⟨g2, ws, .ok⟩

/-- Source `GeometryReader::read_geom` (source lines 101-389).  `contents` is the
byte content of the geometry file (`none` when the file cannot be
opened).  The destination geometry is the caller-owned `Geometry&` that
the source mutates in place; the returned `RunOut` carries its final
state together with the `std::cerr` messages and the outcome. -/
def read_geom (env : Env) (geometry : String) (contents : Option (List Char)) (geom : Geometry) : RunOut :=
  match contents with
  | none => ⟨geom, [], .error (.OpenError geometry)⟩
  | some data =>
    match headerPhase geometry data with
    | .error pe => ⟨geom, pe.1, .error pe.2⟩
    | .ok hv =>
      let vid := hv.2.1
      let warns := hv.2.2
      let g1 := { geom with version_id := some vid }
      let path := dir geometry.toList
      let p := if vid = VersionId.VERSION11 then meshSection env path hv.1 g1 else (hv.1, g1)
      match interfacesHeader geometry p.1 with
      | .error e => ⟨p.2, warns, .error e⟩
      | .ok ih =>
        match interfacesPhase vid path ih.2 ih.1 p.2 with
        | .error e => ⟨p.2, warns, .error e⟩
        | .ok ip =>
          match domainsHeader geometry ip.1 with
          | .error e => ⟨ip.2.2, warns, .error e⟩
          | .ok dh =>
            match domainsPhase env geometry vid dh.2 dh.1 ip.2.1 [] warns with
            | .exited c ds ws => ⟨{ ip.2.2 with domains := ds }, ws, .processExit c⟩
            | .fatal e ds ws => ⟨{ ip.2.2 with domains := ds }, ws, .error e⟩
            | .done ifs3 ds ws => finish geometry ifs3 { ip.2.2 with domains := ds } ws

set_option maxRecDepth 100000

/-- An environment in which every interface passes the closure check
unchanged and vtp files contain one mesh named `Skull`. -/
def envOk : Env := { vtpMeshes := fun _ => ["Skull"], check := fun ms => some ms }

/-- An environment in which the closure check fails (an interface that is
still unclosed after the automatic orientation-repair pass). -/
def envUnclosed : Env := { vtpMeshes := fun _ => [], check := fun _ => none }

/-- A well-formed CURRENT-format file: one mesh, one interface, an inner
domain `Brain` and an outer domain `Air`. -/
def geomNestedFile : String :=
  "# Domain Description 1.1\nMeshes 1\nMesh Skull: \"skull.tri\"\nInterfaces 1\nInterface Skull: +Skull\nDomains 2\nDomain Brain: -Skull\nDomain Air: +Skull\n"

/-- A LEGACY-format file whose single domain references interface `1`. -/
def geomUnclosedFile : String :=
  "# Domain Description 1.0\nInterfaces 1\n\"skull.tri\"\nDomains 1\nDomain Brain -1\n"

/-- A CURRENT-format file that ends after the mesh section. -/
def geomTruncatedFile : String :=
  "# Domain Description 1.1\nMeshes 1\nMesh Skull: \"skull.tri\"\n"

/-- A CURRENT-format file using the `MeshFile` form of the mesh section,
well-formed according to the documented grammar. -/
def geomMeshFileFile : String :=
  "# Domain Description 1.1\nMeshFile \"head.vtp\"\nInterfaces 1\nInterface Skull: +Skull\nDomains 1\nDomain Brain: -Skull\n"

/-- A LEGACY-format file in which every domain has an inside half-space,
so no domain qualifies as outermost. -/
def geomNoOutermostFile : String :=
  "# Domain Description 1.0\nInterfaces 1\n\"cortex.tri\"\nDomains 1\nDomain Brain -1\n"

/-- A CURRENT-format file whose domain references an interface name
(`Ventricle`) that no parsed interface carries. -/
def geomUnknownIdFile : String :=
  "# Domain Description 1.1\nMeshes 1\nMesh Skull: \"skull.tri\"\nInterfaces 1\nInterface Skull: +Skull\nDomains 1\nDomain Brain: -Ventricle\n"

/-- A LEGACY-format file with an all-outside first domain followed by a
domain whose only id token is the deprecated `shared` keyword. -/
def geomSharedFile : String :=
  "# Domain Description 1.0\nInterfaces 1\n\"skull.tri\"\nDomains 2\nDomain Air +1\nDomain Empty shared\n"

/-- A file with the unsupported header version 2.0. -/
def geomBadVersionFile : String :=
  "# Domain Description 2.0\nInterfaces 0\nDomains 0\n"

/-- A well-formed LEGACY-format file. -/
def geomLegacyFile : String :=
  "# Domain Description 1.0\nInterfaces 1\n\"skull.tri\"\nDomains 1\nDomain Air +1\n"

/-- C1: on a geometry file whose referenced interface is still unclosed
after the orientation-repair pass, `read_geom` does NOT return a typed
error: it prints the "is not closed" message and calls `exit(1)`,
unconditionally terminating the host process (source lines 316-321).
This refutes the claimed behavior; the typed-error channel is the spec's
required replacement. -/
theorem c1_unclosed_interface_calls_exit :
    (read_geom envUnclosed ("head.geom") (some geomUnclosedFile.toList) {}).outcome =
      Outcome.processExit 1 := by
  rfl

/-- C2 counterexample: an input on which `read_geom` fails (with
`WrongFileFormat`) yet the destination geometry is no longer in its
pre-call state: the version tag and a mesh name have already been written
through the caller-owned reference when the error is thrown. -/
theorem c2_partial_model_observable :
    (read_geom envOk ("head.geom") (some geomTruncatedFile.toList) {}).outcome =
      Outcome.error (GeomError.WrongFileFormat ("head.geom"))
    ∧ (read_geom envOk ("head.geom") (some geomTruncatedFile.toList) {}).geom ≠ ({} : Geometry)
    ∧ (read_geom envOk ("head.geom") (some geomTruncatedFile.toList) {}).geom.version_id =
        some VersionId.VERSION11
    ∧ (read_geom envOk ("head.geom") (some geomTruncatedFile.toList) {}).geom.meshNames =
        [("Skull" : String)] := by
  refine ⟨rfl, ?_, rfl, rfl⟩
  decide

/-- C4: a successful parse in which no domain has all of its half-spaces
outside.  The embedding reaches the state the claim is about — the
outermost marker is absent (`markOutermost` finds no index, and no domain
is flagged) — but the source reaches it by leaving the iterator `dit_out`
(line 333) uninitialized and then reading it at line 357, which is not an
explicitly absent value. -/
theorem c4_absent_outermost_reached :
    (read_geom envOk ("brain.geom") (some geomNoOutermostFile.toList) {}).outcome = Outcome.ok
    ∧ (read_geom envOk ("brain.geom") (some geomNoOutermostFile.toList) {}).geom.domains.length = 1
    ∧ (read_geom envOk ("brain.geom") (some geomNoOutermostFile.toList) {}).geom.domains.all
        (fun d => !allOutside d) = true
    ∧ (read_geom envOk ("brain.geom") (some geomNoOutermostFile.toList) {}).geom.domains.all
        (fun d => !d.outermost) = true
    ∧ (markOutermost (read_geom envOk ("brain.geom") (some geomNoOutermostFile.toList) {}).geom.domains).2 =
        none := by
  refine ⟨rfl, rfl, ?_, ?_, rfl⟩ <;> decide

/-- C5: a grammatically well-formed `MeshFile` input.  The vtp file IS
loaded (the mesh name appears), but because the source's `switch` has no
`break` after `case 0`, control falls through into the `Meshes` branch,
tries to read a mesh count out of `"Interfaces ..."`, fails the stream,
and the whole parse is rejected with `WrongFileFormat` — instead of
consuming nothing else from the section as claimed. -/
theorem c5_meshfile_input_rejected :
    (read_geom envOk ("d/head.geom") (some geomMeshFileFile.toList) {}).outcome =
      Outcome.error (GeomError.WrongFileFormat ("d/head.geom"))
    ∧ (read_geom envOk ("d/head.geom") (some geomMeshFileFile.toList) {}).geom.meshNames =
        [("Skull" : String)] := by
  exact ⟨rfl, rfl⟩

/-! ### Lemmas about the outermost-domain search -/

theorem allOutside_setOutermostD (d : Domain) : allOutside (setOutermostD d) = allOutside d := by
  unfold allOutside setOutermostD
  simp only [List.all_map]
  rfl

theorem countOutside_setOutermostD (d : Domain) : countOutside (setOutermostD d) = countOutside d := by
  unfold countOutside setOutermostD
  simp only []
  induction d.halfspaces with
  | nil => rfl
  | cons h t ih =>
    simp only [List.map_cons, List.filter_cons]
    cases hh : h.inside <;> simp_all

theorem setOutermostD_flags (d : Domain) :
    (setOutermostD d).halfspaces.all (fun h => h.intf.isOutermost) = true := by
  unfold setOutermostD
  simp [List.all_map, Function.comp_def]

theorem setOutermostD_outermost (d : Domain) : (setOutermostD d).outermost = true := rfl

theorem filter_outermost_eq_nil (ds : List Domain) (pre : ∀ d ∈ ds, d.outermost = false) :
    ds.filter (fun d => d.outermost) = [] := by
  rw [List.filter_eq_nil_iff]
  intro d hd
  simp [pre d hd]

theorem markOutermost_none (ds : List Domain) (h : (markOutermost ds).2 = none) :
    (markOutermost ds).1 = ds ∧ ∀ d ∈ ds, allOutside d = false := by
  induction ds with
  | nil => exact ⟨rfl, by simp⟩
  | cons d t ih =>
    cases hd : allOutside d with
    | true => simp [markOutermost, hd] at h
    | false =>
      simp only [markOutermost, hd] at h ⊢
      simp only [Bool.false_eq_true, if_false] at h ⊢
      have h2 : (markOutermost t).2 = none := by
        cases hmt : (markOutermost t).2 <;> simp [hmt] at h ⊢
      obtain ⟨h3, h4⟩ := ih h2
      refine ⟨by simp [h3], ?_⟩
      intro e he
      rcases List.mem_cons.mp he with rfl | het
      · exact hd
      · exact h4 e het

theorem markOutermost_first (ds : List Domain) (i : Nat) (d : Domain)
    (hget : ds.get? i = some d) (hout : allOutside d = true)
    (hfirst : ∀ j e, j < i → ds.get? j = some e → allOutside e = false) :
    (markOutermost ds).2 = some i ∧ (markOutermost ds).1.get? i = some (setOutermostD d) := by
  induction ds generalizing i with
  | nil => simp at hget
  | cons d0 t ih =>
    cases i with
    | zero =>
      simp only [List.get?_cons_zero, Option.some.injEq] at hget
      subst hget
      simp [markOutermost, hout]
    | succ k =>
      have hd0 : allOutside d0 = false := hfirst 0 d0 (Nat.succ_pos k) rfl
      simp only [List.get?_cons_succ] at hget
      have hfirst' : ∀ j e, j < k → t.get? j = some e → allOutside e = false := by
        intro j e hj hje
        exact hfirst (j + 1) e (Nat.succ_lt_succ hj) hje
      obtain ⟨h1, h2⟩ := ih k hget hfirst'
      simp only [markOutermost, hd0, Bool.false_eq_true, if_false]
      constructor
      · simp [h1]
      · simpa using h2

theorem markOutermost_atMostOne (ds : List Domain) (pre : ∀ d ∈ ds, d.outermost = false) :
    ((markOutermost ds).1.filter (fun d => d.outermost)).length ≤ 1 := by
  induction ds with
  | nil => simp [markOutermost]
  | cons d t ih =>
    cases hd : allOutside d with
    | true =>
      simp only [markOutermost, hd, if_true]
      rw [List.filter_cons]
      simp only [setOutermostD_outermost]
      have hnil : t.filter (fun d => d.outermost) = [] :=
        filter_outermost_eq_nil t (fun e he => pre e (by simp [he]))
      simp [hnil]
    | false =>
      simp only [markOutermost, hd, Bool.false_eq_true, if_false]
      rw [List.filter_cons]
      have hdf : d.outermost = false := pre d (by simp)
      simp only [hdf]
      have := ih (fun e he => pre e (by simp [he]))
      simpa using this

theorem markOutermost_flagged (ds : List Domain) (pre : ∀ d ∈ ds, d.outermost = false)
    (i : Nat) (d : Domain)
    (hget : (markOutermost ds).1.get? i = some d) (hflag : d.outermost = true) :
    allOutside d = true
    ∧ (∀ j e, j < i → (markOutermost ds).1.get? j = some e → allOutside e = false)
    ∧ d.halfspaces.all (fun h => h.intf.isOutermost) = true := by
  induction ds generalizing i with
  | nil => simp [markOutermost] at hget
  | cons d0 t ih =>
    cases hd0 : allOutside d0 with
    | true =>
      simp only [markOutermost, hd0, if_true] at hget ⊢
      cases i with
      | zero =>
        simp only [List.get?_cons_zero, Option.some.injEq] at hget
        subst hget
        refine ⟨by rw [allOutside_setOutermostD]; exact hd0, ?_, setOutermostD_flags d0⟩
        intro j e hj
        omega
      | succ k =>
        simp only [List.get?_cons_succ] at hget
        have hmem : d ∈ t := List.get?_mem hget
        have := pre d (by simp [hmem])
        rw [this] at hflag
        cases hflag
    | false =>
      simp only [markOutermost, hd0, Bool.false_eq_true, if_false] at hget ⊢
      cases i with
      | zero =>
        simp only [List.get?_cons_zero, Option.some.injEq] at hget
        subst hget
        have := pre d0 (by simp)
        rw [this] at hflag
        cases hflag
      | succ k =>
        simp only [List.get?_cons_succ] at hget
        obtain ⟨h1, h2, h3⟩ := ih (fun e he => pre e (by simp [he])) k hget
        refine ⟨h1, ?_, h3⟩
        intro j e hj hje
        cases j with
        | zero =>
          simp only [List.get?_cons_zero, Option.some.injEq] at hje
          subst hje
          exact hd0
        | succ j' =>
          simp only [List.get?_cons_succ] at hje
          exact h2 j' e (by omega) hje

/-! ### The nested classification against the spec's formulation -/

/-- Condition (a) of the claim, following the spec's words: some
non-outermost domain has two or more half-spaces with `inside=false`. -/
def specNonNestedA (ds : List Domain) : Bool :=
  ds.any (fun d => !d.outermost && decide (2 ≤ countOutside d))

/-- The orientation flags of every (domain, half-space, interface-member)
triple whose member mesh is `m`, in iteration order. -/
def meshTriples (ds : List Domain) (m : String) : List Bool :=
  ((ds.flatMap (fun d => d.halfspaces)).flatMap (fun h => h.intf.oriented)).filterMap
    (fun om => if om.mesh = m then some om.orientation else none)

/-- Condition (b) of the claim, following the spec's words: the net signed
orientation contribution of a mesh, counting `+1` for `orientation=true`
and `-1` for `orientation=false` over every triple it participates in. -/
def meshSignedSum (ds : List Domain) (m : String) : Int :=
  (meshTriples ds m).foldl (fun a b => a + (if b then (1 : Int) else -1)) 0

/-- Condition (b) over the model's mesh list: some mesh's net signed
contribution is zero. -/
def specNonNestedB (names : List String) (ds : List Domain) : Bool :=
  names.any (fun m => meshSignedSum ds m == 0)

theorem markOutermost_cons_true (d : Domain) (t : List Domain) (hd : allOutside d = true) :
    markOutermost (d :: t) = (setOutermostD d :: t, some 0) := by
  simp [markOutermost, hd]

theorem markOutermost_cons_false (d : Domain) (t : List Domain) (hd : allOutside d = false) :
    markOutermost (d :: t) =
      (d :: (markOutermost t).1, (markOutermost t).2.map (fun i => i + 1)) := by
  simp [markOutermost, hd]

theorem nestedPassAAux_shift (t : List Domain) (i : Nat) (o : Option Nat) :
    nestedPassAAux t (i + 1) (o.map (fun x => x + 1)) = nestedPassAAux t i o := by
  induction t generalizing i with
  | nil => rfl
  | cons d ds ih =>
    simp only [nestedPassAAux]
    have hcond : (Option.map (fun x => x + 1) o = some (i + 1)) ↔ (o = some i) := by
      cases o <;> simp
    by_cases ho : o = some i
    · rw [if_pos (hcond.mpr ho), if_pos ho]
      simpa using ih (i + 1)
    · rw [if_neg (fun hc => ho (hcond.mp hc)), if_neg ho]
      by_cases h : 2 ≤ countOutside d
      · simp [h]
      · simp only [if_neg h]
        simpa using ih (i + 1)

theorem nestedPassAAux_nomatch (t : List Domain) (i : Nat) (o : Option Nat)
    (ho : ∀ j, o ≠ some (i + j)) :
    nestedPassAAux t i o = !(t.any (fun e => decide (2 ≤ countOutside e))) := by
  induction t generalizing i with
  | nil => rfl
  | cons d ds ih =>
    simp only [nestedPassAAux, List.any_cons]
    have h0 : ¬ (o = some i) := by simpa using ho 0
    rw [if_neg h0]
    by_cases h : 2 ≤ countOutside d
    · simp [h]
    · simp only [decide_eq_false h, if_neg h, Bool.false_or]
      exact ih (i + 1) (fun j => by
        have := ho (1 + j)
        simpa [Nat.add_assoc] using this)

theorem any_congr_mem {α : Type} (l : List α) (p q : α → Bool)
    (h : ∀ a ∈ l, p a = q a) : l.any p = l.any q := by
  induction l with
  | nil => rfl
  | cons x xs ih =>
    simp only [List.any_cons]
    rw [h x (by simp), ih (fun a ha => h a (by simp [ha]))]

theorem nestedPassAAux_cons_self (d : Domain) (t : List Domain) (i : Nat) :
    nestedPassAAux (d :: t) i (some i) = nestedPassAAux t (i + 1) (some i) := by
  simp [nestedPassAAux]

theorem nestedPassAAux_cons_other (d : Domain) (t : List Domain) (i : Nat) (o : Option Nat)
    (h : ¬ o = some i) :
    nestedPassAAux (d :: t) i o =
      (if 2 ≤ countOutside d then false else nestedPassAAux t (i + 1) o) := by
  simp [nestedPassAAux, h]

theorem passA_bridge (ds : List Domain) (pre : ∀ d ∈ ds, d.outermost = false) :
    nestedPassA (markOutermost ds).1 (markOutermost ds).2 =
      !specNonNestedA (markOutermost ds).1 := by
  induction ds with
  | nil => rfl
  | cons d t ih =>
    cases hd : allOutside d with
    | true =>
      rw [markOutermost_cons_true d t hd]
      have h1 : nestedPassAAux t 1 (some 0) = !(t.any (fun e => decide (2 ≤ countOutside e))) := by
        refine nestedPassAAux_nomatch t 1 (some 0) (fun j h => ?_)
        simp only [Option.some.injEq] at h
        omega
      have h2 : t.any (fun e => !e.outermost && decide (2 ≤ countOutside e)) =
          t.any (fun e => decide (2 ≤ countOutside e)) := by
        apply any_congr_mem
        intro e he
        rw [pre e (by simp [he])]
        simp
      unfold nestedPassA specNonNestedA
      rw [nestedPassAAux_cons_self, h1]
      simp only [List.any_cons, setOutermostD_outermost, Bool.not_true, Bool.false_and,
        Bool.false_or]
      rw [h2]
    | false =>
      rw [markOutermost_cons_false d t hd]
      have hne : ¬ ((markOutermost t).2.map (fun i => i + 1) = some 0) := by
        cases (markOutermost t).2 <;> simp
      have hdf : d.outermost = false := pre d (by simp)
      unfold nestedPassA specNonNestedA
      rw [nestedPassAAux_cons_other _ _ _ _ hne]
      simp only [List.any_cons, hdf, Bool.not_false, Bool.true_and]
      by_cases h : 2 ≤ countOutside d
      · simp [h]
      · simp only [decide_eq_false h, if_neg h, Bool.false_or]
        have hshift : nestedPassAAux (markOutermost t).1 (0 + 1) ((markOutermost t).2.map (fun i => i + 1)) =
            nestedPassAAux (markOutermost t).1 0 (markOutermost t).2 :=
          nestedPassAAux_shift (markOutermost t).1 0 (markOutermost t).2
        rw [hshift]
        exact ih (fun e he => pre e (by simp [he]))

theorem meshOrientedCount_flatten1 (ds : List Domain) (m : String) (a : Nat) :
    ds.foldl (fun a d =>
      d.halfspaces.foldl (fun a h =>
        h.intf.oriented.foldl (fun a om =>
          if om.mesh = m then (a + orientationVal om.orientation) % N32 else a) a) a) a =
    (ds.flatMap (fun d => d.halfspaces)).foldl (fun a h =>
        h.intf.oriented.foldl (fun a om =>
          if om.mesh = m then (a + orientationVal om.orientation) % N32 else a) a) a := by
  induction ds generalizing a with
  | nil => rfl
  | cons d t ih => simp [List.flatMap_cons, List.foldl_append, ih]

theorem meshOrientedCount_flatten2 (hs : List HalfSpace) (m : String) (a : Nat) :
    hs.foldl (fun a h =>
      h.intf.oriented.foldl (fun a om =>
        if om.mesh = m then (a + orientationVal om.orientation) % N32 else a) a) a =
    (hs.flatMap (fun h => h.intf.oriented)).foldl (fun a om =>
        if om.mesh = m then (a + orientationVal om.orientation) % N32 else a) a := by
  induction hs generalizing a with
  | nil => rfl
  | cons h t ih => simp [List.flatMap_cons, List.foldl_append, ih]

theorem foldl_filterMap_orientation (m : String) (l : List OrientedMesh) (a : Nat) :
    l.foldl (fun a om => if om.mesh = m then (a + orientationVal om.orientation) % N32 else a) a =
      (l.filterMap (fun om => if om.mesh = m then some om.orientation else none)).foldl
        (fun a b => (a + orientationVal b) % N32) a := by
  induction l generalizing a with
  | nil => rfl
  | cons om t ih =>
    by_cases h : om.mesh = m
    · simp [h, List.filterMap_cons, ih]
    · simp [h, List.filterMap_cons, ih]

theorem meshOrientedCount_eq_triples (ds : List Domain) (m : String) :
    meshOrientedCount ds m =
      (meshTriples ds m).foldl (fun a b => (a + orientationVal b) % N32) 0 := by
  unfold meshOrientedCount meshTriples
  rw [meshOrientedCount_flatten1, meshOrientedCount_flatten2, foldl_filterMap_orientation]

theorem foldl_orientation_formula (l : List Bool) (a : Nat) (ha : a < N32) :
    l.foldl (fun a b => (a + orientationVal b) % N32) a =
      (a + l.count true + l.count false * (N32 - 1)) % N32 := by
  induction l generalizing a with
  | nil => simp [Nat.mod_eq_of_lt ha]
  | cons b t ih =>
    simp only [List.foldl_cons]
    have hpos : 0 < N32 := by simp [N32]
    rw [ih ((a + orientationVal b) % N32) (Nat.mod_lt _ hpos)]
    cases b with
    | true =>
      have e1 : List.count true (true :: t) = List.count true t + 1 := by simp
      have e2 : List.count false (true :: t) = List.count false t := by simp
      rw [e1, e2]
      simp only [orientationVal, if_true, N32]
      omega
    | false =>
      have e1 : List.count true (false :: t) = List.count true t := by simp
      have e2 : List.count false (false :: t) = List.count false t + 1 := by simp
      rw [e1, e2]
      simp only [orientationVal, Bool.false_eq_true, if_false, N32]
      omega

theorem orientedCount_zero_iff (l : List Bool) (hlen : l.length < N32) :
    (l.foldl (fun a b => (a + orientationVal b) % N32) 0 = 0) ↔
      l.count true = l.count false := by
  rw [foldl_orientation_formula l 0 (by simp [N32])]
  have hT : l.count true ≤ l.length := List.count_le_length _ _
  have hF : l.count false ≤ l.length := List.count_le_length _ _
  simp only [N32] at *
  omega

theorem signedSum_formula (l : List Bool) (a : Int) :
    l.foldl (fun a b => a + (if b then (1 : Int) else -1)) a =
      a + l.count true - l.count false := by
  induction l generalizing a with
  | nil => simp
  | cons b t ih =>
    simp only [List.foldl_cons]
    rw [ih]
    cases b with
    | true =>
      have e1 : List.count true (true :: t) = List.count true t + 1 := by simp
      have e2 : List.count false (true :: t) = List.count false t := by simp
      rw [e1, e2]
      simp
      ring
    | false =>
      have e1 : List.count true (false :: t) = List.count true t := by simp
      have e2 : List.count false (false :: t) = List.count false t + 1 := by simp
      rw [e1, e2]
      simp
      ring

theorem meshSignedSum_zero_iff (ds : List Domain) (m : String)
    (hlen : (meshTriples ds m).length < N32) :
    (meshOrientedCount ds m = 0) ↔ (meshSignedSum ds m = 0) := by
  rw [meshOrientedCount_eq_triples, orientedCount_zero_iff _ hlen]
  unfold meshSignedSum
  rw [signedSum_formula]
  omega

theorem passB_bridge (names : List String) (ds : List Domain)
    (hsmall : ∀ m ∈ names, (meshTriples ds m).length < N32) :
    nestedPassB names ds = !specNonNestedB names ds := by
  unfold nestedPassB specNonNestedB
  induction names with
  | nil => rfl
  | cons m t ih =>
    simp only [List.all_cons, List.any_cons, Bool.not_or]
    rw [ih (fun x hx => hsmall x (by simp [hx]))]
    have hiff := meshSignedSum_zero_iff ds m (hsmall m (by simp))
    have h2 : (meshOrientedCount ds m != 0) = !(meshSignedSum ds m == 0) := by
      by_cases hc : meshOrientedCount ds m = 0
      · have h3 : meshSignedSum ds m = 0 := hiff.mp hc
        rw [hc, h3]
        rfl
      · have h3 : ¬ meshSignedSum ds m = 0 := fun h => hc (hiff.mpr h)
        have l1 : (meshOrientedCount ds m != 0) = true := by simpa using hc
        have l2 : (meshSignedSum ds m == 0) = false := by simpa using h3
        rw [l1, l2]
        rfl
    rw [h2]

/-! ### The successful-parse shape of `read_geom` -/

theorem scanInterfaces_preserves_outermost (env : Env) (id : String) (inside : Bool) :
    ∀ (intfs : List Interface) (d : Domain) (is2 : List Interface) (d2 : Domain) (f : Bool),
      scanInterfaces env id inside intfs d = .ok (is2, d2, f) → d2.outermost = d.outermost := by
  intro intfs
  induction intfs with
  | nil =>
    intro d is2 d2 f h
    simp only [scanInterfaces, Except.ok.injEq, Prod.mk.injEq] at h
    rw [← h.2.1]
  | cons intf rest ih =>
    intro d is2 d2 f h
    simp only [scanInterfaces] at h
    by_cases hn : intf.name = id
    · rw [if_pos hn] at h
      cases hc : env.check intf.oriented with
      | none => rw [hc] at h; cases h
      | some repaired =>
        rw [hc] at h
        simp only [] at h
        cases hr : scanInterfaces env id inside rest
            { d with halfspaces := d.halfspaces ++
                [{ intf := { intf with oriented := repaired }, inside := inside }] } with
        | error n => rw [hr] at h; cases h
        | ok r =>
          rw [hr] at h
          obtain ⟨rest2, d3, f2⟩ := r
          simp only [Except.ok.injEq, Prod.mk.injEq] at h
          have := ih _ _ _ _ hr
          rw [← h.2.1, this]
    · rw [if_neg hn] at h
      cases hr : scanInterfaces env id inside rest d with
      | error n => rw [hr] at h; cases h
      | ok r =>
        rw [hr] at h
        obtain ⟨rest2, d3, f2⟩ := r
        simp only [Except.ok.injEq, Prod.mk.injEq] at h
        have := ih _ _ _ _ hr
        rw [← h.2.1, this]

theorem processDomainIds_preserves_outermost (env : Env) (geometry dname : String) :
    ∀ (toks : List (List Char)) (intfs : List Interface) (d : Domain) (ws : List String)
      (d2 : Domain) (intfs2 : List Interface) (ws2 : List String),
      processDomainIds env geometry dname toks intfs d ws = .okRes d2 intfs2 ws2 →
      d2.outermost = d.outermost := by
  intro toks
  induction toks with
  | nil =>
    intro intfs d ws d2 intfs2 ws2 h
    simp only [processDomainIds, IdsRes.okRes.injEq] at h
    rw [← h.1]
  | cons tok rest ih =>
    intro intfs d ws d2 intfs2 ws2 h
    simp only [processDomainIds] at h
    by_cases hs : ((tok.head? == some '-') || (tok.head? == some '+')) = false
        ∧ tok = ("shared".toList)
    · rw [if_pos hs] at h
      simp only [IdsRes.okRes.injEq] at h
      rw [← h.1]
    · rw [if_neg hs] at h
      cases hsc : scanInterfaces env (String.mk (parseDomainId tok).2) (parseDomainId tok).1
          intfs d with
      | error n => rw [hsc] at h; cases h
      | ok r =>
        rw [hsc] at h
        obtain ⟨intfs3, d3, found⟩ := r
        simp only [] at h
        have hd3 : d3.outermost = d.outermost :=
          scanInterfaces_preserves_outermost env _ _ _ _ _ _ _ hsc
        cases found with
        | true =>
          simp only [if_true] at h
          have := ih _ _ _ _ _ _ h
          rw [this, hd3]
        | false =>
          simp only [Bool.false_eq_true, if_false, IdsRes.errRes.injEq] at h
          cases h

theorem domainsPhase_done_flags (env : Env) (geometry : String) (vid : VersionId) :
    ∀ (n : Nat) (ifs : IStream) (intfs : List Interface) (acc : List Domain) (ws : List String)
      (ifs2 : IStream) (ds : List Domain) (ws2 : List String),
      domainsPhase env geometry vid n ifs intfs acc ws = .done ifs2 ds ws2 →
      (∀ d ∈ acc, d.outermost = false) →
      ∀ d ∈ ds, d.outermost = false := by
  intro n
  induction n with
  | zero =>
    intro ifs intfs acc ws ifs2 ds ws2 h hacc
    simp only [domainsPhase, DomainsRes.done.injEq] at h
    rw [← h.2.1]
    exact hacc
  | succ k ih =>
    intro ifs intfs acc ws ifs2 ds ws2 h hacc
    simp only [domainsPhase] at h
    split at h
    · cases h
    · cases h
    · rename_i d intfs2 ws3 heq
      refine ih _ _ _ _ _ _ _ h ?_
      intro e he
      rcases List.mem_append.mp he with he1 | he2
      · exact hacc e he1
      · have : e = d := by simpa using he2
        subst this
        have := processDomainIds_preserves_outermost env geometry _ _ _ _ _ _ _ _ heq
        simpa using this

theorem read_geom_ok_shape (env : Env) (geometry : String) (contents : Option (List Char))
    (g0 : Geometry)
    (h : (read_geom env geometry contents g0).outcome = Outcome.ok) :
    ∃ ifs g ws, read_geom env geometry contents g0 = finish geometry ifs g ws
      ∧ (∀ d ∈ g.domains, d.outermost = false) := by
  revert h
  unfold read_geom
  cases contents with
  | none => intro h; simp at h
  | some data =>
    split
    · intro h; simp at h
    · simp only []
      split
      · intro h; simp at h
      · split
        · intro h; simp at h
        · split
          · intro h; simp at h
          · split
            · intro h; simp at h
            · split
              · intro h; simp at h
              · intro h; simp at h
              · rename_i ifs3 ds ws heq
                intro h
                refine ⟨ifs3, _, ws, rfl, ?_⟩
                intro d hd
                exact domainsPhase_done_flags env geometry _ _ _ _ _ _ _ _ _ heq (by simp) d hd

theorem finish_geom (geometry : String) (ifs : IStream) (g : Geometry) (ws : List String) :
    (finish geometry ifs g ws).geom =
      { g with domains := (markOutermost g.domains).1,
               is_nested := computeNested g.meshNames (markOutermost g.domains).1
                 (markOutermost g.domains).2 } := by
  unfold finish
  simp only []
  split <;> rfl

/-- C6: after the outermost-domain detection pass of every successful
parse, at most one domain is flagged outermost; a flagged domain has all
of its half-spaces outside, no earlier domain qualifies, and every
interface it references carries `is_outermost = true`. -/
theorem c6_outermost_uniqueness (env : Env) (geometry : String) (contents : Option (List Char))
    (g0 : Geometry) (h : (read_geom env geometry contents g0).outcome = Outcome.ok) :
    (((read_geom env geometry contents g0).geom.domains.filter (fun d => d.outermost)).length ≤ 1)
    ∧ (∀ i d, (read_geom env geometry contents g0).geom.domains.get? i = some d →
        d.outermost = true →
        allOutside d = true
        ∧ (∀ j e, j < i → (read_geom env geometry contents g0).geom.domains.get? j = some e →
            allOutside e = false)
        ∧ d.halfspaces.all (fun hs => hs.intf.isOutermost) = true) := by
  obtain ⟨ifs, g, ws, heq, hflags⟩ := read_geom_ok_shape env geometry contents g0 h
  rw [heq, finish_geom]
  refine ⟨markOutermost_atMostOne g.domains hflags, ?_⟩
  intro i d hget hflag
  exact markOutermost_flagged g.domains hflags i d hget hflag

/-- C6 witness: the at-most-one-outermost bound evaluated on a concrete
successful parse. -/
theorem c6_outermost_uniqueness_witness :
    ((read_geom envOk ("head.geom") (some geomNestedFile.toList) {}).geom.domains.filter
      (fun d => d.outermost)).length ≤ 1 :=
  (c6_outermost_uniqueness envOk ("head.geom") (some geomNestedFile.toList) {} rfl).1

/-- C3: for every successfully parsed model, the nested-geometry boolean
is `true` exactly unless (a) some non-outermost domain has two or more
outside half-spaces, or (b) some mesh's net signed orientation
contribution over all its (domain, half-space, interface-member) triples
is zero.  The hypothesis bounds the per-mesh triple count by `2^32` so
that the source's `unsigned` accumulator cannot wrap past zero; any real
model is far below it. -/
theorem c3_nested_classification (env : Env) (geometry : String) (contents : Option (List Char))
    (g0 : Geometry) (h : (read_geom env geometry contents g0).outcome = Outcome.ok)
    (hsmall : ∀ m ∈ (read_geom env geometry contents g0).geom.meshNames,
      (meshTriples (read_geom env geometry contents g0).geom.domains m).length < N32) :
    (read_geom env geometry contents g0).geom.is_nested =
      (!specNonNestedA (read_geom env geometry contents g0).geom.domains
        && !specNonNestedB (read_geom env geometry contents g0).geom.meshNames
             (read_geom env geometry contents g0).geom.domains) := by
  obtain ⟨ifs, g, ws, heq, hflags⟩ := read_geom_ok_shape env geometry contents g0 h
  rw [heq, finish_geom] at hsmall ⊢
  simp only [] at hsmall ⊢
  unfold computeNested
  rw [passA_bridge g.domains hflags]
  by_cases hA : specNonNestedA (markOutermost g.domains).1 = true
  · simp [hA]
  · have hA' : specNonNestedA (markOutermost g.domains).1 = false := by simpa using hA
    rw [hA']
    simp only [Bool.not_false, if_true, Bool.true_and]
    exact passB_bridge g.meshNames (markOutermost g.domains).1 hsmall

/-- C3 witness: the classification evaluated on a concrete successful
parse (two domains sharing one interface over one mesh; nested). -/
theorem c3_nested_classification_witness :
    (read_geom envOk ("head.geom") (some geomNestedFile.toList) {}).geom.is_nested =
      (!specNonNestedA (read_geom envOk ("head.geom") (some geomNestedFile.toList) {}).geom.domains
        && !specNonNestedB (read_geom envOk ("head.geom") (some geomNestedFile.toList) {}).geom.meshNames
             (read_geom envOk ("head.geom") (some geomNestedFile.toList) {}).geom.domains) :=
  c3_nested_classification envOk ("head.geom") (some geomNestedFile.toList) {} rfl (by decide)

/-- C7: the two distinct sign conventions.  In a domain's id list a
leading `-` yields `inside=true` and a leading `+` or no sign yields
`inside=false`; in an interface's id list a leading `-` yields
`orientation=false` and a leading `+` or no sign yields
`orientation=true`. -/
theorem c7_sign_conventions :
    (∀ s : List Char, parseDomainId ('-' :: s) = (true, s))
    ∧ (∀ s : List Char, parseDomainId ('+' :: s) = (false, s))
    ∧ (∀ s : List Char, s.head? ≠ some '-' → s.head? ≠ some '+' → parseDomainId s = (false, s))
    ∧ (∀ s : List Char, parseOrientedId ('-' :: s) = (false, s))
    ∧ (∀ s : List Char, parseOrientedId ('+' :: s) = (true, s))
    ∧ (∀ s : List Char, s.head? ≠ some '-' → s.head? ≠ some '+' →
        parseOrientedId s = (true, s)) := by
  refine ⟨?_, ?_, ?_, ?_, ?_, ?_⟩
  · intro s; simp [parseDomainId]
  · intro s; simp [parseDomainId]
  · intro s hm hp
    cases s with
    | nil => rfl
    | cons c rest =>
      simp only [List.head?_cons, ne_eq, Option.some.injEq] at hm hp
      simp [parseDomainId, hm, hp]
  · intro s; simp [parseOrientedId]
  · intro s; simp [parseOrientedId]
  · intro s hm hp
    cases s with
    | nil => rfl
    | cons c rest =>
      simp only [List.head?_cons, ne_eq, Option.some.injEq] at hm hp
      simp [parseOrientedId, hm, hp]

/-- C7 witness: the conventions evaluated on the spec's own examples. -/
theorem c7_sign_conventions_witness :
    parseDomainId (("-Skull").toList) = (true, ("Skull").toList)
    ∧ parseOrientedId (("-Cortex").toList) = (false, ("Cortex").toList)
    ∧ parseDomainId (("Skull").toList) = (false, ("Skull").toList)
    ∧ parseOrientedId (("Cortex").toList) = (true, ("Cortex").toList) :=
  ⟨c7_sign_conventions.1 (("Skull").toList),
   c7_sign_conventions.2.2.2.1 (("Cortex").toList),
   c7_sign_conventions.2.2.1 (("Skull").toList) (by decide) (by decide),
   c7_sign_conventions.2.2.2.2.2 (("Cortex").toList) (by decide) (by decide)⟩

theorem scanInterfaces_no_match (env : Env) (id : String) (inside : Bool) :
    ∀ (intfs : List Interface) (d : Domain),
      (∀ it ∈ intfs, it.name ≠ id) →
      scanInterfaces env id inside intfs d = .ok (intfs, d, false) := by
  intro intfs
  induction intfs with
  | nil => intro d _; rfl
  | cons intf rest ih =>
    intro d hno
    have h1 : intf.name ≠ id := hno intf (by simp)
    simp only [scanInterfaces, if_neg h1]
    rw [ih d (fun it hit => hno it (by simp [hit]))]

/-- C8: an id in a domain's id list (other than the deprecated bare
`shared` token) that matches no parsed interface name makes the id-list
processing stop with `NonExistingDomain(domain, id)` naming both the
domain and the unresolved (sign-stripped) id; and, concretely, `read_geom`
on a file whose domain references the absent interface `Ventricle` fails
with exactly that error, producing no model. -/
theorem c8_unknown_interface_reference :
    (∀ (env : Env) (geometry dname : String) (tok : List Char) (rest : List (List Char))
        (intfs : List Interface) (d : Domain) (ws : List String),
      (tok.head? = some '-' ∨ tok.head? = some '+' ∨ tok ≠ (("shared").toList)) →
      (∀ it ∈ intfs, it.name ≠ String.mk (parseDomainId tok).2) →
      processDomainIds env geometry dname (tok :: rest) intfs d ws =
        IdsRes.errRes (GeomError.NonExistingDomain dname (String.mk (parseDomainId tok).2)) d ws)
    ∧ (read_geom envOk ("head.geom") (some geomUnknownIdFile.toList) {}).outcome =
        Outcome.error (GeomError.NonExistingDomain ("Brain") ("Ventricle")) := by
  constructor
  · intro env geometry dname tok rest intfs d ws hsign hno
    simp only [processDomainIds]
    have hcond : ¬ (((tok.head? == some '-') || (tok.head? == some '+')) = false
        ∧ tok = (("shared").toList)) := by
      intro hc
      rcases hsign with h | h | h
      · rw [h] at hc; simp at hc
      · rw [h] at hc; simp at hc
      · exact h hc.2
    rw [if_neg hcond]
    rw [scanInterfaces_no_match env (String.mk (parseDomainId tok).2) (parseDomainId tok).1
      intfs d hno]
    simp
  · rfl

/-- C8 witness: the error produced for the spec's scenario (domain
`Brain`, unresolved id `Ventricle`). -/
theorem c8_unknown_interface_reference_witness :
    processDomainIds envOk ("head.geom") ("Brain") [("-Ventricle").toList]
      [({ name := "Skull", oriented := [{ mesh := "Skull", orientation := true }] } : Interface)]
      ({ name := "Brain" } : Domain) [] =
      IdsRes.errRes (GeomError.NonExistingDomain ("Brain") ("Ventricle"))
        ({ name := "Brain" } : Domain) [] :=
  c8_unknown_interface_reference.1 envOk ("head.geom") ("Brain") (("-Ventricle").toList) []
    [({ name := "Skull", oriented := [{ mesh := "Skull", orientation := true }] } : Interface)]
    ({ name := "Brain" } : Domain) [] (Or.inl (by decide)) (by decide)

/-- C9: the header parser accepts exactly major=1 with minor in {0,1}
(`checkVersion`, the gate of source lines 139-144); version 2.0 raises
`WrongFileFormat` with the destination untouched; on acceptance the tag is
`VERSION10` (LEGACY) for 1.0 — with the non-fatal deprecation notice on
`std::cerr` — and `VERSION11` (CURRENT) for 1.1. -/
theorem c9_version_gate :
    (∀ v0 v1 : Nat, (checkVersion v0 v1).isSome = true ↔ (v0 = 1 ∧ v1 ≤ 1))
    ∧ checkVersion 1 0 = some VersionId.VERSION10
    ∧ checkVersion 1 1 = some VersionId.VERSION11
    ∧ (read_geom envOk ("head.geom") (some geomBadVersionFile.toList) {}).outcome =
        Outcome.error (GeomError.WrongFileFormat ("head.geom"))
    ∧ (read_geom envOk ("head.geom") (some geomBadVersionFile.toList) {}).geom = ({} : Geometry)
    ∧ (read_geom envOk ("head.geom") (some geomLegacyFile.toList) {}).outcome = Outcome.ok
    ∧ (read_geom envOk ("head.geom") (some geomLegacyFile.toList) {}).geom.version_id =
        some VersionId.VERSION10
    ∧ (deprecatedWarning ("head.geom")) ∈
        (read_geom envOk ("head.geom") (some geomLegacyFile.toList) {}).warnings
    ∧ (read_geom envOk ("head.geom") (some geomNestedFile.toList) {}).geom.version_id =
        some VersionId.VERSION11 := by
  refine ⟨?_, rfl, rfl, rfl, rfl, rfl, rfl, ?_, rfl⟩
  · intro v0 v1
    unfold checkVersion
    split <;> rename_i h <;> simp <;> omega
  · decide

/-- C9 witness: the version gate instantiated at the rejected header
`2.0`. -/
theorem c9_version_gate_witness :
    (checkVersion 2 0).isSome = true ↔ (2 = 1 ∧ 0 ≤ 1) :=
  c9_version_gate.1 2 0

/-- Does the call fail before or at the header version check?  (`none`
contents: the file did not open; otherwise the header parse/gate
rejects.) -/
def headerStageFails (geometry : String) (contents : Option (List Char)) : Bool :=
  match contents with
  | none => true
  | some data =>
    match headerPhase geometry data with
    | .error _ => true
    | .ok _ => false

/-- C2 amended: failures at the open/header stage leave the destination
geometry exactly as it was before the call (and no model is produced);
later failures may leave partially built state observable (see the
counterexample). -/
theorem c2_header_stage_unchanged (env : Env) (geometry : String)
    (contents : Option (List Char)) (g : Geometry)
    (h : headerStageFails geometry contents = true) :
    (read_geom env geometry contents g).geom = g
    ∧ (read_geom env geometry contents g).outcome ≠ Outcome.ok := by
  unfold headerStageFails at h
  unfold read_geom
  cases contents with
  | none => exact ⟨rfl, by simp⟩
  | some data =>
    simp only [] at h ⊢
    cases hh : headerPhase geometry data with
    | error pe => exact ⟨rfl, by simp⟩
    | ok hv =>
      rw [hh] at h
      exact Bool.noConfusion h

/-- C2 amended witness: a file whose header is junk leaves the (default)
destination geometry unchanged. -/
theorem c2_header_stage_unchanged_witness :
    (read_geom envOk ("bad.geom") (some (("junk").toList)) {}).geom = ({} : Geometry)
    ∧ (read_geom envOk ("bad.geom") (some (("junk").toList)) {}).outcome ≠ Outcome.ok :=
  c2_header_stage_unchanged envOk ("bad.geom") (some (("junk").toList)) {} (by decide)

/-- C10 counterexample: a successful parse (`Domain Air +1` then
`Domain Empty shared`) in which the first domain with an empty id list
(index 1) is NOT marked outermost — an earlier domain already satisfied
the all-outside condition and the scan breaks there.  This refutes the
claim as stated. -/
theorem c10_first_empty_not_marked :
    (read_geom envOk ("head.geom") (some geomSharedFile.toList) {}).outcome = Outcome.ok
    ∧ ((read_geom envOk ("head.geom") (some geomSharedFile.toList) {}).geom.domains.get? 0).map
        (fun d => d.halfspaces.isEmpty) = some false
    ∧ ((read_geom envOk ("head.geom") (some geomSharedFile.toList) {}).geom.domains.get? 1).map
        (fun d => (d.halfspaces.isEmpty, d.outermost)) = some (true, false)
    ∧ (read_geom envOk ("head.geom") (some geomSharedFile.toList) {}).geom.domains.length = 2 :=
  ⟨rfl, rfl, rfl, rfl⟩

/-- C10 amended: a domain with no half-spaces vacuously satisfies the
all-half-spaces-outside condition, so the first empty domain is marked
outermost PROVIDED no earlier domain (empty or not) already satisfies the
condition. -/
theorem c10_empty_domain_vacuously_outermost :
    (∀ (nm : String) (b : Bool),
      allOutside ({ name := nm, halfspaces := [], outermost := b } : Domain) = true)
    ∧ (∀ (ds : List Domain) (i : Nat) (d : Domain),
        ds.get? i = some d → d.halfspaces = [] →
        (∀ j e, j < i → ds.get? j = some e → allOutside e = false) →
        (markOutermost ds).2 = some i
        ∧ ((markOutermost ds).1.get? i).map (fun x => x.outermost) = some true) := by
  constructor
  · intro nm b; rfl
  · intro ds i d hget hempty hfirst
    have hout : allOutside d = true := by
      unfold allOutside
      rw [hempty]
      rfl
    obtain ⟨h1, h2⟩ := markOutermost_first ds i d hget hout hfirst
    refine ⟨h1, ?_⟩
    rw [h2]
    rfl

/-- C10 amended witness: with a non-qualifying first domain, the empty
second domain is marked. -/
theorem c10_empty_domain_vacuously_outermost_witness :
    (markOutermost
      [({ name := "Brain",
          halfspaces := [{ intf := { name := "Skull" }, inside := true }] } : Domain),
       ({ name := "Empty" } : Domain)]).2 = some 1 :=
  (c10_empty_domain_vacuously_outermost.2
    [({ name := "Brain",
        halfspaces := [{ intf := { name := "Skull" }, inside := true }] } : Domain),
     ({ name := "Empty" } : Domain)] 1 ({ name := "Empty" } : Domain) rfl rfl
    (fun j e hj hje => by
      have hj0 : j = 0 := by omega
      subst hj0
      simp only [List.get?_cons_zero, Option.some.injEq] at hje
      subst hje
      rfl)).1
